import Mathlib

/-!
Verification of the orchestration core of the `first-launch` repository
(backend session registry, confirmation gates, async pipeline, and the
per-unit price normalizer & ranker), via a shallow embedding of
`backend/session_manager.py`, `backend/workflow_async.py`,
`backend/main.py` and `src/agents/combo_pricing_agent.py`.

Conventions of the embedding:
* Python `datetime` timestamps are modelled as `Nat` ticks (seconds).
* Python numeric prices (floats) are modelled as `ℚ`; `round(x, 2)` and
  the `f"{x:.2f}"` formatting both round to two decimal places and are
  modelled by `round2`.  (Python uses round-half-even at exact ties; no
  claim in this development depends on the tie case.)
* Python dict values that are `None`, the string `"null"`, or fail
  `float()` conversion are collapsed into `Option.none`.
* Exceptions raised by external collaborators (LLM / scraper calls) are
  modelled as `Except String` oracle parameters; the pure reshaping the
  code performs on their answers is embedded directly.
-/

/-! ## Offers, per-unit pricing and ranking
Source: `backend/workflow_async.py` (per_unit_pricing and ranking stages)
and `src/agents/combo_pricing_agent.py`. -/

/-- One product of a combo breakdown (`combo_pricing_agent.py`,
`combo_breakdown.products` entries). -/
structure ProductMrp where
  name : String
  variant : String
  mrp : ℚ
deriving DecidableEq, Repr

/-- The `combo_breakdown` dictionary produced by
`ComboPricingAgent._calculate_price`. -/
structure ComboBreakdown where
  original_product_mrp : ℚ
  sum_of_mrps : ℚ
  products : List ProductMrp
deriving DecidableEq, Repr

/-- A discovered / enriched / normalized offer record (`url_data` dict in
`workflow_async._continue_workflow`).  `price` is the scraped sale price
(`None`, `"null"` and non-numeric strings are all modelled as `none`);
`per_unit_price` is absent (`none`) until the per-unit stage sets it. -/
structure Offer where
  url : String
  product_type : String
  price : Option ℚ := none
  per_unit_price : Option ℚ := none
  combo_breakdown : Option ComboBreakdown := none
deriving DecidableEq, Repr

/-- Round to two decimal places: Python's `round(x, 2)` and the
`f"{x:.2f}"` format used to store prices. -/
def round2 (q : ℚ) : ℚ := (round (q * 100) : ℤ) / 100

/-- The MRP data dictionary returned by the MRP-extraction collaborator
(`ComboProductMRPExtractor.extract_product_mrps`), as consumed by
`ComboPricingAgent._calculate_price`: the target item's reference price
(`original_product.mrp`), the sum of all component reference prices
(`sum_of_mrps`), and the combo's sale price. -/
structure MrpData where
  original_mrp : ℚ
  sum_of_mrps : ℚ
  combo_sale_price : ℚ
  products : List ProductMrp
deriving DecidableEq, Repr

/-- `ComboPricingAgent._calculate_price`, per-unit price component:
`per_unit_price = round((original_mrp / sum_of_mrps) * combo_sale_price, 2)`. -/
def calculate_price (d : MrpData) : ℚ :=
  round2 (d.original_mrp / d.sum_of_mrps * d.combo_sale_price)

/-- Result dictionary of `ComboPricingAgent.calculate_combo_pricing`. -/
structure ComboPricingResult where
  per_unit_price : ℚ
  combo_breakdown : ComboBreakdown
deriving DecidableEq, Repr

/-- What the MRP-extraction collaborator itself supplies: the target
item's reference price and the component reference prices (the
`combo_sale_price` entry of the returned dict merely echoes the sale
price the agent passed in, so it is not part of the oracle's answer). -/
structure MrpExtraction where
  original_mrp : ℚ
  sum_of_mrps : ℚ
  products : List ProductMrp
deriving DecidableEq, Repr

/-- `ComboPricingAgent.calculate_combo_pricing`: the MRP-extraction
collaborator is an oracle returning `Option MrpExtraction` (`None` on
failure).  On extraction failure the agent returns `None`; any exception
in stage 2 — in particular a `ZeroDivisionError` from
`_calculate_price` when `sum_of_mrps = 0` — is caught and also yields
`None`. -/
def calculate_combo_pricing (combo_sale_price : ℚ)
    (extract : Option MrpExtraction) : Option ComboPricingResult :=
  match extract with
  | none => none
  | some e =>
      if e.sum_of_mrps = 0 then none
      else
        let d : MrpData :=
          { original_mrp := e.original_mrp, sum_of_mrps := e.sum_of_mrps,
            combo_sale_price := combo_sale_price, products := e.products }
        some
          { per_unit_price := calculate_price d
            combo_breakdown :=
              { original_product_mrp := d.original_mrp
                sum_of_mrps := d.sum_of_mrps
                products := d.products } }

/-- Per-unit-pricing of a single `url_data` record, from the loop body of
the per_unit_pricing stage in `workflow_async._continue_workflow`
(lines 485-524).  `extractor` models the MRP-extraction collaborator,
keyed by the combo offer's URL; the offer's scraped sale price is passed
to the agent as `combo_sale_price=price_float`. -/
def perUnitOne (extractor : String → Option MrpExtraction) (o : Offer) : Offer :=
  match o.price with
  | none => o
  | some p =>
      if o.product_type = "individual" then
        { o with per_unit_price := some (round2 p) }
      else if o.product_type = "combo" then
        match calculate_combo_pricing p (extractor o.url) with
        | some res =>
            { o with
                per_unit_price := some res.per_unit_price
                combo_breakdown := some res.combo_breakdown }
        | none => { o with per_unit_price := none }
      else o

/-- The whole per_unit_pricing stage body (the `updated_urls` loop). -/
def perUnitStage (extractor : String → Option MrpExtraction) (l : List Offer) : List Offer :=
  l.map (perUnitOne extractor)

/-- `u.get("per_unit_price") not in [None, "null"]`. -/
def hasPU (o : Offer) : Bool := o.per_unit_price.isSome

/-- The ranking sort key, `float(x.get("per_unit_price", 0))`. -/
def puKey (o : Offer) : ℚ := o.per_unit_price.getD 0

/-- The comparison under which Python's stable `list.sort` orders the
offers that carry a per-unit price. -/
def puLE (a b : Offer) : Prop := puKey a ≤ puKey b

instance : DecidableRel puLE := fun a b =>
  inferInstanceAs (Decidable (puKey a ≤ puKey b))

instance : IsTotal Offer puLE := ⟨fun a b => le_total (puKey a) (puKey b)⟩

instance : IsTrans Offer puLE := ⟨fun _ _ _ h h' => le_trans h h'⟩

instance : IsRefl Offer puLE := ⟨fun a => le_refl (puKey a)⟩

/-- The ranking stage of `workflow_async._continue_workflow`
(lines 561-566): split offers by presence of `per_unit_price`, stably
sort the priced ones ascending by that value (Python `list.sort` is a
stable sort; `List.insertionSort` with `≤` on the key is the standard
stable-sort model), and append the unpriced ones in original order. -/
def rankOffers (l : List Offer) : List Offer :=
  List.insertionSort puLE (l.filter fun u => hasPU u) ++ l.filter fun u => !hasPU u

/-! ## Session records and the session manager
Source: `backend/session_manager.py`. -/

/-- A progress-log entry (`add_progress_log` dict; only the fields the
claims inspect are kept: `stage`, `status`, `message`, `timestamp`). -/
structure LogEntry where
  stage : String
  status : String
  message : String
  timestamp : Nat := 0
deriving DecidableEq, Repr

/-- A candidate dict (product or variant), kept opaque: the registry
stores and counts candidates but never looks inside them. -/
structure Candidate where
  payload : String
deriving DecidableEq, Repr

/-- The `extracted_details` dict stored by
`set_url_extraction_confirmation_needed`. -/
structure ExtractedDetails where
  brand : String
  product : String
  variant : String
deriving DecidableEq, Repr

/-- `WorkflowSession` dataclass of `backend/session_manager.py`. -/
structure WorkflowSession where
  session_id : String
  input_type : String
  user_input : String
  created_at : Nat
  last_updated : Nat
  current_stage : String := "initializing"
  status : String := "running"
  progress_logs : List LogEntry := []
  needs_product_confirmation : Bool := false
  product_candidates : List Candidate := []
  confirmed_product_index : Option Nat := none
  needs_variant_confirmation : Bool := false
  variant_candidates : List Candidate := []
  confirmed_variant_index : Option Nat := none
  needs_url_extraction_confirmation : Bool := false
  extracted_details : Option ExtractedDetails := none
  url_extraction_confirmed : Bool := false
  final_results : Option (List Offer) := none
  error_message : Option String := none
  marked_for_cleanup : Bool := false
  cleanup_after : Option Nat := none
deriving DecidableEq, Repr

/-- The manager's `self.sessions` dict, as an association list keyed by
session id. -/
abbrev Sessions := List (String × WorkflowSession)

namespace SessionManager

/-- `self.sessions.get(session_id)` — lookup of the stored record. -/
def lookup (σ : Sessions) (sid : String) : Option WorkflowSession :=
  (σ.find? fun p => p.1 = sid).map Prod.snd

/-- In-place mutation of the record stored under `sid` (the
`session = self.sessions.get(sid); if session: <mutate session>` pattern
every manager method uses); a no-op when the id is unknown. -/
def updateAt (σ : Sessions) (sid : String) (f : WorkflowSession → WorkflowSession) :
    Sessions :=
  σ.map fun p => if p.1 = sid then (p.1, f p.2) else p

/-- `create_session` (the fresh uuid is nondeterministic and supplied as
`sid`): inserts a new record with status `running`. -/
def create_session (σ : Sessions) (sid input_type user_input : String) (now : Nat) :
    Sessions :=
  (sid, { session_id := sid, input_type := input_type, user_input := user_input,
          created_at := now, last_updated := now }) :: σ

/-- `get_session`: the Python code is `return self.sessions.get(session_id)`,
which returns the stored `WorkflowSession` object itself — a live, mutable
reference, not a copy.  A reference into the registry is modelled by the
key it aliases; reading through the reference at a later time is
`deref` against the registry state at that time. -/
def get_session_ref (σ : Sessions) (sid : String) : Option String :=
  if (lookup σ sid).isSome then some sid else none

/-- Reading the record a previously returned reference points at, in the
current registry state. -/
def deref (σ : Sessions) (r : String) : Option WorkflowSession :=
  lookup σ r

/-- The snapshot the spec asks `get(id)` to return: an immutable copy of
the record as it is at call time (modelled from the spec: the code has no
copying read; this definition exists to be compared with the code's
live-reference `get_session_ref`/`deref` semantics). -/
def get_session_snapshot (σ : Sessions) (sid : String) : Option WorkflowSession :=
  lookup σ sid

/-- `add_progress_log`: append one entry with a fresh timestamp and bump
`last_updated`. -/
def add_progress_log (σ : Sessions) (sid : String) (e : LogEntry) (now : Nat) :
    Sessions :=
  updateAt σ sid fun s =>
    { s with progress_logs := s.progress_logs ++ [{ e with timestamp := now }],
             last_updated := now }

/-- `update_session(session_id, current_stage=...)` as used by the
workflow: sets the current stage and bumps `last_updated`. -/
def update_stage (σ : Sessions) (sid stage : String) (now : Nat) : Sessions :=
  updateAt σ sid fun s => { s with current_stage := stage, last_updated := now }

/-- Record-level effect of `set_product_confirmation_needed`. -/
def openProductGate (cands : List Candidate) (now : Nat) (s : WorkflowSession) :
    WorkflowSession :=
  { s with status := "waiting_confirmation",
           needs_product_confirmation := true,
           product_candidates := cands,
           current_stage := "product_confirmation",
           last_updated := now }

/-- `set_product_confirmation_needed`. -/
def set_product_confirmation_needed (σ : Sessions) (sid : String)
    (cands : List Candidate) (now : Nat) : Sessions :=
  updateAt σ sid (openProductGate cands now)

/-- `confirm_product`: succeeds (and mutates) only when
`needs_product_confirmation` is set and `0 <= product_index < len(product_candidates)`;
returns `False` (without mutating) otherwise.  The index is an `Int`
because the HTTP layer accepts any integer. -/
def confirm_product (σ : Sessions) (sid : String) (product_index : Int) (now : Nat) :
    Bool × Sessions :=
  match lookup σ sid with
  | none => (false, σ)
  | some s =>
      if s.needs_product_confirmation then
        if 0 ≤ product_index ∧ product_index < s.product_candidates.length then
          (true, updateAt σ sid fun s =>
            { s with confirmed_product_index := some product_index.toNat,
                     needs_product_confirmation := false,
                     status := "running",
                     last_updated := now })
        else (false, σ)
      else (false, σ)

/-- Record-level effect of `set_variant_confirmation_needed`. -/
def openVariantGate (cands : List Candidate) (now : Nat) (s : WorkflowSession) :
    WorkflowSession :=
  { s with status := "waiting_confirmation",
           needs_variant_confirmation := true,
           variant_candidates := cands,
           current_stage := "variant_confirmation",
           last_updated := now }

/-- `set_variant_confirmation_needed`. -/
def set_variant_confirmation_needed (σ : Sessions) (sid : String)
    (cands : List Candidate) (now : Nat) : Sessions :=
  updateAt σ sid (openVariantGate cands now)

/-- `confirm_variant` (same shape as `confirm_product`). -/
def confirm_variant (σ : Sessions) (sid : String) (variant_index : Int) (now : Nat) :
    Bool × Sessions :=
  match lookup σ sid with
  | none => (false, σ)
  | some s =>
      if s.needs_variant_confirmation then
        if 0 ≤ variant_index ∧ variant_index < s.variant_candidates.length then
          (true, updateAt σ sid fun s =>
            { s with confirmed_variant_index := some variant_index.toNat,
                     needs_variant_confirmation := false,
                     status := "running",
                     last_updated := now })
        else (false, σ)
      else (false, σ)

/-- `set_url_extraction_confirmation_needed`. -/
def set_url_extraction_confirmation_needed (σ : Sessions) (sid : String)
    (details : ExtractedDetails) (now : Nat) : Sessions :=
  updateAt σ sid fun s =>
    { s with status := "waiting_confirmation",
             needs_url_extraction_confirmation := true,
             extracted_details := some details,
             current_stage := "url_extraction_confirmation",
             last_updated := now }

/-- `confirm_url_extraction`: succeeds only while the url-extraction gate
is open; `confirmed = true` resumes the session, `confirmed = false`
fails it with "User rejected URL extraction". -/
def confirm_url_extraction (σ : Sessions) (sid : String) (confirmed : Bool)
    (now : Nat) : Bool × Sessions :=
  match lookup σ sid with
  | none => (false, σ)
  | some s =>
      if s.needs_url_extraction_confirmation then
        (true, updateAt σ sid fun s =>
          { s with url_extraction_confirmed := confirmed,
                   needs_url_extraction_confirmation := false,
                   status := if confirmed then "running" else "failed",
                   error_message := if confirmed then s.error_message
                                    else some "User rejected URL extraction",
                   last_updated := now })
      else (false, σ)

/-- Record-level effect of `set_completed`. -/
def setCompletedFn (results : List Offer) (now : Nat) (s : WorkflowSession) :
    WorkflowSession :=
  { s with status := "completed",
           current_stage := "complete",
           final_results := some results,
           last_updated := now }

/-- `set_completed`. -/
def set_completed (σ : Sessions) (sid : String) (results : List Offer) (now : Nat) :
    Sessions :=
  updateAt σ sid (setCompletedFn results now)

/-- Record-level effect of `set_failed`. -/
def setFailedFn (msg : String) (now : Nat) (s : WorkflowSession) : WorkflowSession :=
  { s with status := "failed",
           error_message := some msg,
           last_updated := now }

/-- `set_failed`. -/
def set_failed (σ : Sessions) (sid : String) (msg : String) (now : Nat) : Sessions :=
  updateAt σ sid (setFailedFn msg now)

/-- `mark_for_cleanup`: flags the record and schedules `cleanup_after`
(`cleanup_delay` in the same tick units as `now`). -/
def mark_for_cleanup (σ : Sessions) (sid : String) (cleanup_delay now : Nat) :
    Sessions :=
  updateAt σ sid fun s =>
    { s with marked_for_cleanup := true, cleanup_after := some (now + cleanup_delay) }

/-- The removal condition of `cleanup_old_sessions` for one record:
rule 1 — marked for cleanup and `cleanup_after` reached; rule 2 — status
`running`/`waiting_confirmation` and inactive longer than
`session_timeout`.  (Python's `now - last_updated > timeout` on
timedeltas agrees with truncated `Nat` subtraction: both are false
whenever `last_updated > now`.) -/
def shouldRemove (session_timeout now : Nat) (s : WorkflowSession) : Bool :=
  (s.marked_for_cleanup && (match s.cleanup_after with
                            | some t => decide (t ≤ now)
                            | none => false))
  || ((s.status = "running" || s.status = "waiting_confirmation")
      && decide (session_timeout < now - s.last_updated))

/-- `cleanup_old_sessions` (the eviction sweep): deletes exactly the
records satisfying `shouldRemove`. -/
def cleanup_old_sessions (σ : Sessions) (session_timeout now : Nat) : Sessions :=
  σ.filter fun p => !shouldRemove session_timeout now p.2

/-- `get_session_count`. -/
def get_session_count (σ : Sessions) : Nat := σ.length

end SessionManager

/-! ## Confirmation-gate wait loops
Source: `backend/workflow_async.py`,
`_wait_for_product_confirmation` / `_wait_for_variant_confirmation` /
`_wait_for_url_extraction_confirmation`. -/

/-- The three confirmation gates. -/
inductive Gate where
  | product
  | variant
  | urlExtraction
deriving DecidableEq, Repr

/-- The `needs_*_confirmation` flag each wait loop polls. -/
def Gate.needsFlag : Gate → WorkflowSession → Bool
  | .product, s => s.needs_product_confirmation
  | .variant, s => s.needs_variant_confirmation
  | .urlExtraction, s => s.needs_url_extraction_confirmation

/-- Whether the wait loop also exits on `status == "failed"`: the product
and variant loops do, the url-extraction loop does not (it only polls its
flag). -/
def Gate.checkFailed : Gate → Bool
  | .product => true
  | .variant => true
  | .urlExtraction => false

/-- The gate-specific message passed to `set_failed` on timeout. -/
def Gate.timeoutMsg : Gate → String
  | .product => "Product confirmation timeout"
  | .variant => "Variant confirmation timeout"
  | .urlExtraction => "URL extraction confirmation timeout"

/-- One `_wait_for_*_confirmation` loop, in the execution where no other
thread mutates the registry while the pipeline is waiting (the
never-resolved / already-resolved scenarios): the loop polls once per
second while `elapsed < timeout`; if it never observes the exit
condition it calls `set_failed` with the gate's timeout message at time
`start + elapsed`.  Returns the registry and the elapsed seconds at
which the loop exited. -/
def waitForConfirmation (g : Gate) (σ : Sessions) (sid : String)
    (start : Nat) (elapsed timeout : Nat) : Sessions × Nat :=
  if elapsed < timeout then
    match SessionManager.lookup σ sid with
    | none => (σ, elapsed)
    | some s =>
        if !(g.needsFlag s) then (σ, elapsed)
        else if g.checkFailed && s.status = "failed" then (σ, elapsed)
        else waitForConfirmation g σ sid start (elapsed + 1) timeout
  else (SessionManager.set_failed σ sid g.timeoutMsg (start + elapsed), elapsed)
termination_by timeout - elapsed

/-- The check the keyword workflow performs right after waiting on the
product or variant gate (`workflow_async.py` lines 193-195 / 279-281):
`if not session or session.status == "failed": return` — `true` means
the pipeline halts. -/
def postWaitHalts (σ : Sessions) (sid : String) : Bool :=
  match SessionManager.lookup σ sid with
  | none => true
  | some s => s.status = "failed"

/-- The check the url workflow performs right after waiting on the
url-extraction gate (`workflow_async.py` lines 349-364):
`if not session or session.status == "failed" or not
session.url_extraction_confirmed: set_failed(sid, "User rejected
extraction"); return`, else log success and continue.  Returns the
registry and whether the pipeline continues into the shared tail. -/
def urlPostWaitCheck (σ : Sessions) (sid : String) (now : Nat) :
    Sessions × Bool :=
  match SessionManager.lookup σ sid with
  | none => (SessionManager.set_failed σ sid "User rejected extraction" now, false)
  | some s =>
      if s.status = "failed" || !s.url_extraction_confirmed then
        (SessionManager.set_failed σ sid "User rejected extraction" now, false)
      else
        (SessionManager.add_progress_log σ sid
          { stage := "url_extraction_confirmation", status := "success",
            message := "User confirmed extraction" } now, true)

/-! ## The shared pipeline tail
Source: `workflow_async._continue_workflow`.  External collaborator
calls are oracle parameters; an `Except.error e` / `some e` models the
call raising exception `e`. -/

/-- The url-discovery collaborator's answer dict: the discovered urls
and `discovery_result.get("error", "No URLs found")` used when the list
is empty. -/
structure DiscoveryResult where
  urls : List Offer
  error : Option String
deriving Repr

/-- Oracles for the stages of `_continue_workflow`.  `perUnitExc` /
`rankingExc` being `some e` model the corresponding `try` block raising
`e` (for per-unit pricing e.g. the MRP extractor raising; for ranking
e.g. `float()` failing on a non-numeric `per_unit_price`). -/
structure ContinueOracles where
  discovery : Except String DiscoveryResult
  scraping : Except String (List Offer)
  perUnitExc : Option String := none
  extractor : String → Option MrpExtraction := fun _ => none
  rankingExc : Option String := none

/-- `_continue_workflow`: url-discovery → price-scraping →
per-unit-pricing → ranking → completion.  Discovery and scraping
failures (raised exception, or an empty discovery result) call
`set_failed` and return at once; the per-unit and ranking `except`
handlers instead log a `"warning"` entry and continue with the
un-normalized / un-ranked list. -/
def continueWorkflow (σ : Sessions) (sid : String) (orc : ContinueOracles)
    (now : Nat) : Sessions :=
  let σ := SessionManager.add_progress_log σ sid
    { stage := "url_discovery", status := "started", message := "Discovering URLs" } now
  let σ := SessionManager.update_stage σ sid "url_discovery" now
  match orc.discovery with
  | .error e => SessionManager.set_failed σ sid ("URL discovery failed: " ++ e) now
  | .ok dres =>
    let σ := SessionManager.add_progress_log σ sid
      { stage := "url_discovery", status := "success", message := "Found URLs" } now
    if dres.urls.isEmpty then
      SessionManager.set_failed σ sid (dres.error.getD "No URLs found") now
    else
    let σ := SessionManager.add_progress_log σ sid
      { stage := "price_scraping", status := "started", message := "Scraping prices" } now
    let σ := SessionManager.update_stage σ sid "price_scraping" now
    match orc.scraping with
    | .error e => SessionManager.set_failed σ sid ("Price scraping failed: " ++ e) now
    | .ok enriched =>
      let σ := SessionManager.add_progress_log σ sid
        { stage := "price_scraping", status := "success", message := "Enriched URLs" } now
      let σ := SessionManager.add_progress_log σ sid
        { stage := "per_unit_pricing", status := "started",
          message := "Calculating per-unit prices" } now
      let σ := SessionManager.update_stage σ sid "per_unit_pricing" now
      let stepPU : Sessions × List Offer :=
        match orc.perUnitExc with
        | some e =>
            (SessionManager.add_progress_log σ sid
              { stage := "per_unit_pricing", status := "warning",
                message := "Warning: " ++ e } now, enriched)
        | none =>
            (SessionManager.add_progress_log σ sid
              { stage := "per_unit_pricing", status := "success",
                message := "Per-unit pricing complete" } now,
             perUnitStage orc.extractor enriched)
      let σ := stepPU.1
      let updated := stepPU.2
      let σ := SessionManager.add_progress_log σ sid
        { stage := "ranking", status := "started",
          message := "Ranking products by price" } now
      let σ := SessionManager.update_stage σ sid "ranking" now
      let stepR : Sessions × List Offer :=
        match orc.rankingExc with
        | some e =>
            (SessionManager.add_progress_log σ sid
              { stage := "ranking", status := "warning",
                message := "Warning: " ++ e } now, updated)
        | none =>
            (SessionManager.add_progress_log σ sid
              { stage := "ranking", status := "success",
                message := "Ranked products" } now,
             rankOffers updated)
      let σ := stepR.1
      let σ := SessionManager.set_completed σ sid stepR.2 now
      SessionManager.add_progress_log σ sid
        { stage := "complete", status := "success",
          message := "Workflow completed successfully" } now

/-- The status of the record stored under `sid`. -/
def statusOf (σ : Sessions) (sid : String) : Option String :=
  (SessionManager.lookup σ sid).map WorkflowSession.status

/-- The error message of the record stored under `sid`. -/
def errorOf (σ : Sessions) (sid : String) : Option String :=
  (SessionManager.lookup σ sid).bind WorkflowSession.error_message

/-- The stages named by the progress log of the record under `sid`. -/
def stagesLogged (σ : Sessions) (sid : String) : List String :=
  ((SessionManager.lookup σ sid).map
    fun s => s.progress_logs.map LogEntry.stage).getD []

/-! ## HTTP endpoints
Source: `backend/main.py`. -/

/-- Outcome of the `confirm-product` / `confirm-variant` endpoints; each
constructor is one distinct exit of the handler: `success` (200),
`notFound` (404 "Session not found"), `stateConflict`
(400 "... confirmation not needed" — the gate is not open),
`validationError` (400 "Invalid ... index"). -/
inductive ConfirmOutcome where
  | success (index : Int)
  | notFound
  | stateConflict
  | validationError
deriving DecidableEq, Repr

/-- `POST /api/workflow/confirm-product/{session_id}`
(`main.confirm_product`): 404 when the session is unknown, 400
state-conflict when `needs_product_confirmation` is not set, then
delegates to `SessionManager.confirm_product` and maps its `False`
to the 400 "Invalid product index" validation failure. -/
def confirm_product_endpoint (σ : Sessions) (sid : String)
    (product_index : Int) (now : Nat) : ConfirmOutcome × Sessions :=
  match SessionManager.lookup σ sid with
  | none => (.notFound, σ)
  | some s =>
      if !s.needs_product_confirmation then (.stateConflict, σ)
      else
        let r := SessionManager.confirm_product σ sid product_index now
        if r.1 then (.success product_index, r.2) else (.validationError, r.2)

/-- `POST /api/workflow/confirm-variant/{session_id}`
(`main.confirm_variant`), same shape. -/
def confirm_variant_endpoint (σ : Sessions) (sid : String)
    (variant_index : Int) (now : Nat) : ConfirmOutcome × Sessions :=
  match SessionManager.lookup σ sid with
  | none => (.notFound, σ)
  | some s =>
      if !s.needs_variant_confirmation then (.stateConflict, σ)
      else
        let r := SessionManager.confirm_variant σ sid variant_index now
        if r.1 then (.success variant_index, r.2) else (.validationError, r.2)

/-- Outcome of the results endpoint: `ok` (200 with the stored
`final_results`), `notFound` (404), `stateConflict`
(400 "Workflow not completed. Current status: ..."). -/
inductive ResultsOutcome where
  | ok (results : Option (List Offer))
  | notFound
  | stateConflict (currentStatus : String)
deriving DecidableEq, Repr

/-- `GET /api/workflow/results/{session_id}` (`main.get_results`). -/
def get_results_endpoint (σ : Sessions) (sid : String) : ResultsOutcome :=
  match SessionManager.lookup σ sid with
  | none => .notFound
  | some s =>
      if s.status ≠ "completed" then .stateConflict s.status
      else .ok s.final_results

/-! ## Concrete scenario states used by the theorems below -/

/-- Default confirmation-gate timeout (`timeout_seconds: int = 300`). -/
def gateTimeoutSeconds : Nat := 300

/-- The `final_results` of the record stored under `sid`. -/
def resultsOf (σ : Sessions) (sid : String) : Option (List Offer) :=
  (SessionManager.lookup σ sid).bind WorkflowSession.final_results

/-- Offer A of the spec's ranking example: `per_unit = 300.00`. -/
def offerA : Offer :=
  { url := "https://shop/a", product_type := "individual",
    price := some 300, per_unit_price := some 300 }

/-- Offer B of the spec's ranking example: `per_unit = null`. -/
def offerB : Offer :=
  { url := "https://shop/b", product_type := "combo",
    price := some 999, per_unit_price := none }

/-- Offer C of the spec's ranking example: `per_unit = 150.00`. -/
def offerC : Offer :=
  { url := "https://shop/c", product_type := "individual",
    price := some 150, per_unit_price := some 150 }

/-- A keyword session whose product gate was opened with two candidates
and then hit the 300 s confirmation timeout (`_wait_for_product_confirmation`
called `set_failed(sid, "Product confirmation timeout")`); note
`needs_product_confirmation` is still `true` afterwards. -/
def timedOutProductState : Sessions :=
  SessionManager.set_failed
    (SessionManager.set_product_confirmation_needed
      (SessionManager.create_session [] "s1" "keyword" "BrandX Widget 100ml" 0)
      "s1" [{ payload := "c0" }, { payload := "c1" }] 1)
    "s1" "Product confirmation timeout" 301

/-- An offer used by the pipeline scenario below. -/
def scrapedOffer : Offer :=
  { url := "https://shop/x", product_type := "individual", price := some (9999 / 100) }

/-- Oracles for a pipeline run in which discovery and scraping succeed
but the per-unit-pricing stage raises an exception. -/
def perUnitFailureOracles : ContinueOracles :=
  { discovery := .ok { urls := [scrapedOffer], error := none }
    scraping := .ok [scrapedOffer]
    perUnitExc := some "combo agent crashed" }

/-- Fresh keyword session used for the pipeline scenario. -/
def pipelineState0 : Sessions :=
  SessionManager.create_session [] "k2" "keyword" "widget" 0

/-- The pipeline scenario run to completion. -/
def pipelineFinal : Sessions :=
  continueWorkflow pipelineState0 "k2" perUnitFailureOracles 5

/-- A url session whose extraction gate has just been opened. -/
def urlGateState : Sessions :=
  SessionManager.set_url_extraction_confirmation_needed
    (SessionManager.create_session [] "u1" "url" "https://brand/p" 0)
    "u1" { brand := "B", product := "P", variant := "V" } 1

/-- The record stored in `urlGateState`. -/
def urlGateSession : WorkflowSession :=
  { session_id := "u1", input_type := "url", user_input := "https://brand/p",
    created_at := 0, last_updated := 1,
    current_stage := "url_extraction_confirmation",
    status := "waiting_confirmation",
    needs_url_extraction_confirmation := true,
    extracted_details := some { brand := "B", product := "P", variant := "V" } }

/-- The url-extraction wait loop run with the gate never resolved. -/
def urlGateWaited : Sessions × Nat :=
  waitForConfirmation .urlExtraction urlGateState "u1" 1 0 gateTimeoutSeconds

/-- A keyword session whose product gate has just been opened. -/
def productGateState : Sessions :=
  SessionManager.set_product_confirmation_needed
    (SessionManager.create_session [] "k1" "keyword" "BrandX Widget" 0)
    "k1" [{ payload := "c0" }, { payload := "c1" }] 1

/-- The record stored in `productGateState`. -/
def productGateSession : WorkflowSession :=
  { session_id := "k1", input_type := "keyword", user_input := "BrandX Widget",
    created_at := 0, last_updated := 1,
    current_stage := "product_confirmation",
    status := "waiting_confirmation",
    needs_product_confirmation := true,
    product_candidates := [{ payload := "c0" }, { payload := "c1" }] }

/-- The product wait loop run with the gate never resolved. -/
def productGateWaited : Sessions × Nat :=
  waitForConfirmation .product productGateState "k1" 1 0 gateTimeoutSeconds

/-- A fresh session used to exhibit the aliasing behaviour of
`get_session`. -/
def aliasState0 : Sessions :=
  SessionManager.create_session [] "g1" "keyword" "q" 0

/-- `aliasState0` after a `set_failed` mutation. -/
def aliasState1 : Sessions :=
  SessionManager.set_failed aliasState0 "g1" "boom" 5

/-! ## The two workflow entry variants
Source: `workflow_async._run_keyword_workflow` and
`workflow_async._run_url_workflow`.  As with the wait loops above, the
gate branches are embedded in the execution where no external
confirmation arrives while the pipeline is waiting; every theorem below
about these functions exercises only paths that do not depend on that
caveat (exception paths, empty/single collaborator answers, and the
never-resolved gate paths). -/

/-- The `parsed_data` dict returned by the query-parsing collaborator
(`OrchestratorAgent.parse_user_input`). -/
structure ParsedData where
  brand : String
  product_name : String
  variant : Option String
  has_variant : Bool
deriving Repr

/-- The dict returned by the URL-extraction collaborator
(`URLExtractionAgent.extract_from_url`): a success flag, the extracted
context, and `extraction_result.get("error", "Extraction failed")`. -/
structure UrlExtractionAnswer where
  success : Bool
  error : Option String
  brand : String
  product_name : String
  variant : String
deriving Repr

/-- Oracles for the keyword-entry workflow: the query parser, the
product-search and variant-search collaborators (an `Except.error e`
models the call raising `e`), and the shared-tail oracles. -/
structure KeywordOracles where
  parse : Except String ParsedData
  productSearch : Except String (List Candidate)
  variantSearch : Except String (List Candidate)
  tail : ContinueOracles

/-- Oracles for the url-entry workflow. -/
structure UrlOracles where
  extraction : Except String UrlExtractionAnswer
  tail : ContinueOracles

/-- Variant stage of `_run_keyword_workflow` (lines 209-302): skipped
when the query already specified a variant; an empty variant answer
auto-picks `standard` and continues; exactly one auto-selects; more
than one opens the variant gate; a raised exception fails the session
with `"Variant extraction failed: ..."`.  (The chosen candidate itself
only feeds display strings, which this embedding does not carry.) -/
def runVariantPhase (σ : Sessions) (sid : String) (pd : ParsedData)
    (orc : KeywordOracles) (now : Nat) : Sessions :=
  if pd.has_variant then
    let σ := SessionManager.add_progress_log σ sid
      { stage := "variant_extraction", status := "skipped",
        message := "Variant already specified, skipping extraction" } now
    continueWorkflow σ sid orc.tail now
  else
    let σ := SessionManager.add_progress_log σ sid
      { stage := "variant_extraction", status := "started",
        message := "Extracting product variants" } now
    let σ := SessionManager.update_stage σ sid "variant_extraction" now
    match orc.variantSearch with
    | .error e => SessionManager.set_failed σ sid ("Variant extraction failed: " ++ e) now
    | .ok variants =>
      if variants.length = 0 then
        let σ := SessionManager.add_progress_log σ sid
          { stage := "variant_extraction", status := "success",
            message := "No variants found, using standard" } now
        continueWorkflow σ sid orc.tail now
      else if variants.length = 1 then
        let σ := SessionManager.add_progress_log σ sid
          { stage := "variant_extraction", status := "success",
            message := "Auto-selected variant" } now
        continueWorkflow σ sid orc.tail now
      else
        let σ := SessionManager.set_variant_confirmation_needed σ sid variants now
        let σ := SessionManager.add_progress_log σ sid
          { stage := "variant_confirmation", status := "waiting",
            message := "Please select a variant" } now
        let w := waitForConfirmation .variant σ sid now 0 gateTimeoutSeconds
        match SessionManager.lookup w.1 sid with
        | none => w.1
        | some s =>
          if s.status = "failed" then w.1
          else
            let σ := SessionManager.add_progress_log w.1 sid
              { stage := "variant_confirmation", status := "success",
                message := "User selected variant" } now
            continueWorkflow σ sid orc.tail now

/-- `_run_keyword_workflow` (lines 97-302): parsing → product search →
product confirmation (fail on zero candidates, auto-pick on one, gate
on several) → variant stage → shared tail.  A raised exception in the
parsing or product-search block fails the session with that stage's
message and returns at once. -/
def runKeywordWorkflow (σ : Sessions) (sid : String) (orc : KeywordOracles)
    (now : Nat) : Sessions :=
  let σ := SessionManager.add_progress_log σ sid
    { stage := "parsing", status := "started", message := "Parsing query" } now
  let σ := SessionManager.update_stage σ sid "parsing" now
  match orc.parse with
  | .error e => SessionManager.set_failed σ sid ("Parsing failed: " ++ e) now
  | .ok pd =>
    let σ := SessionManager.add_progress_log σ sid
      { stage := "parsing", status := "success",
        message := "Extracted brand and product" } now
    let σ := SessionManager.add_progress_log σ sid
      { stage := "product_search", status := "started",
        message := "Searching for the product" } now
    let σ := SessionManager.update_stage σ sid "product_search" now
    match orc.productSearch with
    | .error e => SessionManager.set_failed σ sid ("Product search failed: " ++ e) now
    | .ok products =>
      let σ := SessionManager.add_progress_log σ sid
        { stage := "product_search", status := "success",
          message := "Found products" } now
      if products.length = 0 then
        SessionManager.set_failed σ sid "No products found" now
      else if products.length = 1 then
        let σ := SessionManager.add_progress_log σ sid
          { stage := "product_confirmation", status := "success",
            message := "Auto-selected product" } now
        runVariantPhase σ sid pd orc now
      else
        let σ := SessionManager.set_product_confirmation_needed σ sid products now
        let σ := SessionManager.add_progress_log σ sid
          { stage := "product_confirmation", status := "waiting",
            message := "Please select a product" } now
        let w := waitForConfirmation .product σ sid now 0 gateTimeoutSeconds
        match SessionManager.lookup w.1 sid with
        | none => w.1
        | some s =>
          if s.status = "failed" then w.1
          else
            let σ := SessionManager.add_progress_log w.1 sid
              { stage := "product_confirmation", status := "success",
                message := "User selected product" } now
            runVariantPhase σ sid pd orc now

/-- `_run_url_workflow` (lines 305-377): url extraction → extraction
gate (via the wait loop and `urlPostWaitCheck`) → shared tail.  A
raised exception fails the session with `"URL extraction failed: ..."`;
an unsuccessful extraction fails it with the collaborator's error
message (default `"Extraction failed"`). -/
def runUrlWorkflow (σ : Sessions) (sid : String) (orc : UrlOracles)
    (now : Nat) : Sessions :=
  let σ := SessionManager.add_progress_log σ sid
    { stage := "url_extraction", status := "started",
      message := "Extracting details from URL" } now
  let σ := SessionManager.update_stage σ sid "url_extraction" now
  match orc.extraction with
  | .error e => SessionManager.set_failed σ sid ("URL extraction failed: " ++ e) now
  | .ok res =>
    if !res.success then
      SessionManager.set_failed σ sid (res.error.getD "Extraction failed") now
    else
      let σ := SessionManager.set_url_extraction_confirmation_needed σ sid
        { brand := res.brand, product := res.product_name, variant := res.variant } now
      let σ := SessionManager.add_progress_log σ sid
        { stage := "url_extraction_confirmation", status := "waiting",
          message := "Please confirm extracted details" } now
      let w := waitForConfirmation .urlExtraction σ sid now 0 gateTimeoutSeconds
      let c := urlPostWaitCheck w.1 sid now
      if c.2 then continueWorkflow c.1 sid orc.tail now else c.1

/-! ## Helper lemmas (shared) -/

/-- Mutating under `sid` changes exactly the record stored under `sid`. -/
theorem lookup_updateAt (σ : Sessions) (sid : String)
    (f : WorkflowSession → WorkflowSession) :
    SessionManager.lookup (SessionManager.updateAt σ sid f) sid
      = (SessionManager.lookup σ sid).map f := by
  induction σ with
  | nil => rfl
  | cons p σ ih =>
      by_cases h : p.1 = sid
      · simp [SessionManager.lookup, SessionManager.updateAt, h]
      · simpa [SessionManager.lookup, SessionManager.updateAt, h] using ih

/-- A wait loop over a registry in which the gate is open, the session is
not failed, and nothing changes (the gate is never resolved) runs for the
full timeout and then marks the session failed with the gate's timeout
message, `timeout` seconds after it started polling. -/
theorem waitForConfirmation_never_resolved (g : Gate) (σ : Sessions)
    (sid : String) (start timeout : Nat) (s : WorkflowSession)
    (hs : SessionManager.lookup σ sid = some s)
    (hflag : g.needsFlag s = true)
    (hfail : s.status ≠ "failed") :
    ∀ n elapsed, timeout - elapsed = n → elapsed ≤ timeout →
      waitForConfirmation g σ sid start elapsed timeout
        = (SessionManager.set_failed σ sid g.timeoutMsg (start + timeout), timeout) := by
  intro n
  induction n with
  | zero =>
      intro elapsed h0 hle
      have he : elapsed = timeout := by omega
      subst he
      rw [waitForConfirmation]
      simp
  | succ n ih =>
      intro elapsed h0 hle
      have hlt : elapsed < timeout := by omega
      have hd : decide (s.status = "failed") = false := by
        simp [hfail]
      rw [waitForConfirmation]
      simp only [hlt, if_pos, hs, hflag, Bool.not_true, Bool.false_eq_true,
        if_false, hd, Bool.and_false]
      exact ih (elapsed + 1) (by omega) (by omega)

/-- Stability of the embedded sort, insertion step, inserted element
carrying the filtered per-unit value: `orderedInsert` walks over only
strictly smaller keys, so it inserts `a` in front of every offer with
the same per-unit price. -/
theorem filter_orderedInsert_of_eq (v : ℚ) (a : Offer)
    (ha : a.per_unit_price = some v) (l : List Offer) :
    (List.orderedInsert puLE a l).filter (fun o => decide (o.per_unit_price = some v))
      = a :: l.filter (fun o => decide (o.per_unit_price = some v)) := by
  induction l with
  | nil => simp [ha]
  | cons b l ih =>
      by_cases h : puLE a b
      · simp [List.orderedInsert, h, ha]
      · have hb : ¬ b.per_unit_price = some v := by
          intro hbv
          exact h (by simp [puLE, puKey, ha, hbv])
        simp [List.orderedInsert, h, ha, hb, ih]

/-- Stability of the embedded sort, insertion step, inserted element not
carrying the filtered per-unit value. -/
theorem filter_orderedInsert_of_ne (v : ℚ) (a : Offer)
    (ha : ¬ a.per_unit_price = some v) (l : List Offer) :
    (List.orderedInsert puLE a l).filter (fun o => decide (o.per_unit_price = some v))
      = l.filter (fun o => decide (o.per_unit_price = some v)) := by
  induction l with
  | nil => simp [ha]
  | cons b l ih =>
      by_cases h : puLE a b
      · simp [List.orderedInsert, h, ha]
      · simp only [List.orderedInsert, if_neg h]
        rw [List.filter_cons, List.filter_cons, ih]

/-- Stability of the embedded sort: sorting never reorders offers that
share one per-unit price. -/
theorem filter_insertionSort_pu (v : ℚ) (l : List Offer) :
    (List.insertionSort puLE l).filter (fun o => decide (o.per_unit_price = some v))
      = l.filter (fun o => decide (o.per_unit_price = some v)) := by
  induction l with
  | nil => rfl
  | cons a l ih =>
      by_cases ha : a.per_unit_price = some v
      · simp only [List.insertionSort]
        rw [filter_orderedInsert_of_eq v a ha, ih]
        simp [ha]
      · simp only [List.insertionSort]
        rw [filter_orderedInsert_of_ne v a ha, ih]
        simp [ha]

/-- C3: for every list of enriched offers, the ranking output is the
offers with a non-null `per_unit_price` sorted ascending by that value —
stably, i.e. offers sharing one per-unit price keep their original
relative order — followed by the offers with null `per_unit_price` in
their original relative order; concretely, for A(300.00), B(null),
C(150.00) discovered as [A, B, C] the ranked output is [C, A, B]. -/
theorem ranking_matches_spec :
    (∀ l : List Offer, ∃ s : List Offer,
        rankOffers l = s ++ l.filter (fun u => !hasPU u)
        ∧ s.Perm (l.filter fun u => hasPU u)
        ∧ List.Sorted puLE s
        ∧ ∀ v : ℚ, s.filter (fun o => decide (o.per_unit_price = some v))
            = l.filter (fun o => decide (o.per_unit_price = some v)))
    ∧ rankOffers [offerA, offerB, offerC] = [offerC, offerA, offerB] := by
  constructor
  · intro l
    refine ⟨List.insertionSort puLE (l.filter fun u => hasPU u), rfl,
      List.perm_insertionSort _ _, List.sorted_insertionSort _ _, ?_⟩
    intro v
    rw [filter_insertionSort_pu, List.filter_filter]
    apply List.filter_congr
    intro o _
    by_cases h : o.per_unit_price = some v
    · simp [h, hasPU]
    · simp [h]
  · decide

/-- C9: ranking is idempotent — applying the ranking stage to its own
output returns the same order. -/
theorem ranking_idempotent : ∀ l : List Offer, rankOffers (rankOffers l) = rankOffers l := by
  intro l
  have hmemS : ∀ x ∈ List.insertionSort puLE (l.filter fun u => hasPU u),
      hasPU x = true := by
    intro x hx
    exact (List.mem_filter.mp ((List.mem_insertionSort puLE).mp hx)).2
  have hmemN : ∀ x ∈ l.filter (fun u => !hasPU u), hasPU x = false := by
    intro x hx
    simpa using (List.mem_filter.mp hx).2
  simp only [rankOffers]
  rw [List.filter_append, List.filter_append]
  rw [List.filter_eq_self.mpr hmemS]
  have h1 : (l.filter fun u => !hasPU u).filter (fun u => hasPU u) = [] :=
    List.filter_eq_nil_iff.mpr (fun a ha => by simp [hmemN a ha])
  have h2 : (List.insertionSort puLE (l.filter fun u => hasPU u)).filter
      (fun u => !hasPU u) = [] :=
    List.filter_eq_nil_iff.mpr (fun a ha => by simp [hmemS a ha])
  have h3 : (l.filter fun u => !hasPU u).filter (fun u => !hasPU u)
      = l.filter fun u => !hasPU u :=
    List.filter_eq_self.mpr (fun a ha => by simp [hmemN a ha])
  rw [h1, h2, h3, List.append_nil, List.nil_append]
  rw [List.Sorted.insertionSort_eq (List.sorted_insertionSort puLE _)]

/-- C4: for a bundle offer with numeric raw price `p` whose
MRP-extraction collaborator supplies target reference price and
component sum, the per-unit stage stores
`round(P_target / S * p, 2)` (raw price retained); if the collaborator
fails, `per_unit_price` is null and the raw price is retained; an
individual offer gets its raw price rounded to 2 decimals.  Concretely
`P_target = 500.00`, `S = 1000.00`, bundle sale price `750.00` gives
`375.00`, and an individual offer priced `249.99` gives `249.99`. -/
theorem per_unit_price_formula :
    (∀ (ext : String → Option MrpExtraction) (o : Offer) (p : ℚ) (e : MrpExtraction),
        o.price = some p → o.product_type = "combo" → ext o.url = some e →
        e.sum_of_mrps ≠ 0 →
        (perUnitOne ext o).per_unit_price
            = some (round2 (e.original_mrp / e.sum_of_mrps * p))
        ∧ (perUnitOne ext o).price = some p)
    ∧ (∀ (ext : String → Option MrpExtraction) (o : Offer) (p : ℚ),
        o.price = some p → o.product_type = "combo" → ext o.url = none →
        (perUnitOne ext o).per_unit_price = none
        ∧ (perUnitOne ext o).price = some p)
    ∧ (∀ (ext : String → Option MrpExtraction) (o : Offer) (p : ℚ),
        o.price = some p → o.product_type = "individual" →
        (perUnitOne ext o).per_unit_price = some (round2 p)
        ∧ (perUnitOne ext o).price = some p)
    ∧ calculate_price
        { original_mrp := 500, sum_of_mrps := 1000, combo_sale_price := 750,
          products := [{ name := "target", variant := "std", mrp := 500 },
                       { name := "other", variant := "std", mrp := 500 }] } = 375
    ∧ round2 (24999 / 100) = 24999 / 100 := by
  refine ⟨?_, ?_, ?_, ?_, ?_⟩
  · intro ext o p e hp htype hext hsum
    have hni : ¬ o.product_type = "individual" := by
      rw [htype]
      decide
    constructor <;>
      simp [perUnitOne, hp, htype, hni, hext, calculate_combo_pricing, hsum,
        calculate_price]
  · intro ext o p hp htype hext
    have hni : ¬ o.product_type = "individual" := by
      rw [htype]
      decide
    constructor <;>
      simp [perUnitOne, hp, htype, hni, hext, calculate_combo_pricing]
  · intro ext o p hp htype
    constructor <;> simp [perUnitOne, hp, htype]
  · norm_num [calculate_price, round2, round_eq]
  · norm_num [round2, round_eq]

/-- Witness for `per_unit_price_formula`: the bundle example
(500.00 / 1000.00 × 750.00 = 375.00), the collaborator-failure case, and
the individual example (249.99). -/
theorem per_unit_price_formula_witness :
    (perUnitOne
        (fun _ => some { original_mrp := 500, sum_of_mrps := 1000,
                         products := [{ name := "target", variant := "std", mrp := 500 },
                                      { name := "other", variant := "std", mrp := 500 }] })
        { url := "https://shop/combo", product_type := "combo",
          price := some 750 }).per_unit_price = some 375
    ∧ (perUnitOne (fun _ => none)
        { url := "https://shop/combo", product_type := "combo",
          price := some 750 }).per_unit_price = none
    ∧ (perUnitOne (fun _ => none)
        { url := "https://shop/item", product_type := "individual",
          price := some (24999 / 100) }).per_unit_price = some (24999 / 100) := by
  refine ⟨?_, ?_, ?_⟩
  · have h := (per_unit_price_formula.1
      (fun _ => some { original_mrp := 500, sum_of_mrps := 1000,
                       products := [{ name := "target", variant := "std", mrp := 500 },
                                    { name := "other", variant := "std", mrp := 500 }] })
      { url := "https://shop/combo", product_type := "combo", price := some 750 }
      750 _ rfl rfl rfl (by norm_num)).1
    rw [h]
    norm_num [round2, round_eq]
  · exact (per_unit_price_formula.2.1 (fun _ => none)
      { url := "https://shop/combo", product_type := "combo", price := some 750 }
      750 rfl rfl rfl).1
  · have h := (per_unit_price_formula.2.2.1 (fun _ => none)
      { url := "https://shop/item", product_type := "individual",
        price := some (24999 / 100) } (24999 / 100) rfl rfl).1
    rw [h]
    norm_num [round2, round_eq]

/-- C8: the results endpoint returns a state-conflict error (never a
success payload) for any stored session whose status is not `completed`,
and returns the stored ranked offers when the status is `completed`. -/
theorem get_results_endpoint_spec :
    ∀ (σ : Sessions) (sid : String) (s : WorkflowSession),
      SessionManager.lookup σ sid = some s →
      (s.status ≠ "completed" →
        get_results_endpoint σ sid = .stateConflict s.status
        ∧ ∀ r, get_results_endpoint σ sid ≠ .ok r)
      ∧ (s.status = "completed" →
        get_results_endpoint σ sid = .ok s.final_results) := by
  intro σ sid s hs
  constructor
  · intro h
    constructor
    · simp [get_results_endpoint, hs, h]
    · intro r
      simp [get_results_endpoint, hs, h]
  · intro h
    simp [get_results_endpoint, hs, h]

/-- Witness for `get_results_endpoint_spec`: a failed session gets a
state conflict; a completed one gets its stored offers. -/
theorem get_results_endpoint_spec_witness :
    get_results_endpoint aliasState1 "g1" = .stateConflict "failed"
    ∧ get_results_endpoint
        (SessionManager.set_completed aliasState0 "g1" [offerA] 9) "g1"
        = .ok (some [offerA]) := by
  constructor
  · exact ((get_results_endpoint_spec aliasState1 "g1" _ rfl).1 (by decide)).1
  · exact (get_results_endpoint_spec
      (SessionManager.set_completed aliasState0 "g1" [offerA] 9) "g1" _ rfl).2 rfl

/-- C7: resolving the product (resp. variant) gate through the endpoint
with the gate open and an in-range index records the chosen index,
clears the gate flag, sets status `running` and returns success; an
out-of-range index yields the validation failure with the registry
unchanged; a gate that is not open yields the state-conflict failure
with the registry unchanged. -/
theorem confirm_gate_endpoint_spec :
    ∀ (σ : Sessions) (sid : String) (s : WorkflowSession) (idx : Int) (now : Nat),
      SessionManager.lookup σ sid = some s →
      ((s.needs_product_confirmation = true →
          0 ≤ idx → idx < (s.product_candidates.length : Int) →
          (confirm_product_endpoint σ sid idx now).1 = .success idx
          ∧ SessionManager.lookup (confirm_product_endpoint σ sid idx now).2 sid
              = some { s with confirmed_product_index := some idx.toNat,
                              needs_product_confirmation := false,
                              status := "running", last_updated := now })
        ∧ (s.needs_product_confirmation = true →
            ¬ (0 ≤ idx ∧ idx < (s.product_candidates.length : Int)) →
            confirm_product_endpoint σ sid idx now = (.validationError, σ))
        ∧ (s.needs_product_confirmation = false →
            confirm_product_endpoint σ sid idx now = (.stateConflict, σ)))
      ∧ ((s.needs_variant_confirmation = true →
          0 ≤ idx → idx < (s.variant_candidates.length : Int) →
          (confirm_variant_endpoint σ sid idx now).1 = .success idx
          ∧ SessionManager.lookup (confirm_variant_endpoint σ sid idx now).2 sid
              = some { s with confirmed_variant_index := some idx.toNat,
                              needs_variant_confirmation := false,
                              status := "running", last_updated := now })
        ∧ (s.needs_variant_confirmation = true →
            ¬ (0 ≤ idx ∧ idx < (s.variant_candidates.length : Int)) →
            confirm_variant_endpoint σ sid idx now = (.validationError, σ))
        ∧ (s.needs_variant_confirmation = false →
            confirm_variant_endpoint σ sid idx now = (.stateConflict, σ))) := by
  intro σ sid s idx now hs
  constructor
  · refine ⟨?_, ?_, ?_⟩
    · intro hneed h0 hlen
      have hcond : 0 ≤ idx ∧ idx < (s.product_candidates.length : Int) := ⟨h0, hlen⟩
      constructor
      · simp [confirm_product_endpoint, hs, hneed,
          SessionManager.confirm_product, hcond]
      · simp [confirm_product_endpoint, hs, hneed,
          SessionManager.confirm_product, hcond, lookup_updateAt]
    · intro hneed hcond
      simp [confirm_product_endpoint, hs, hneed,
        SessionManager.confirm_product, hcond]
    · intro hneed
      simp [confirm_product_endpoint, hs, hneed]
  · refine ⟨?_, ?_, ?_⟩
    · intro hneed h0 hlen
      have hcond : 0 ≤ idx ∧ idx < (s.variant_candidates.length : Int) := ⟨h0, hlen⟩
      constructor
      · simp [confirm_variant_endpoint, hs, hneed,
          SessionManager.confirm_variant, hcond]
      · simp [confirm_variant_endpoint, hs, hneed,
          SessionManager.confirm_variant, hcond, lookup_updateAt]
    · intro hneed hcond
      simp [confirm_variant_endpoint, hs, hneed,
        SessionManager.confirm_variant, hcond]
    · intro hneed
      simp [confirm_variant_endpoint, hs, hneed]

/-- Witness for `confirm_gate_endpoint_spec` on a session whose product
gate is open with two candidates: index 1 succeeds, index 7 is rejected
as a validation failure without mutation, and a session without an open
gate gets the state-conflict failure. -/
theorem confirm_gate_endpoint_spec_witness :
    (confirm_product_endpoint productGateState "k1" 1 5).1 = ConfirmOutcome.success 1
    ∧ confirm_product_endpoint productGateState "k1" 7 5
        = (ConfirmOutcome.validationError, productGateState)
    ∧ confirm_product_endpoint aliasState0 "g1" 0 5
        = (ConfirmOutcome.stateConflict, aliasState0) := by
  refine ⟨?_, ?_, ?_⟩
  · exact ((confirm_gate_endpoint_spec productGateState "k1" _ 1 5 rfl).1.1
      rfl (by decide) (by decide)).1
  · exact (confirm_gate_endpoint_spec productGateState "k1" _ 7 5 rfl).1.2.1
      rfl (by decide)
  · exact (confirm_gate_endpoint_spec aliasState0 "g1" _ 0 5 rfl).1.2.2 rfl

/-- C10: the sweep removes a record exactly when it was marked for
cleanup and its `cleanup_after` time has been reached, or its status is
`running`/`waiting_confirmation` and it has been inactive longer than
the session timeout; hence every `completed`/`failed` record that was
never marked survives every sweep, and `set_completed`/`set_failed`
never mark a record or schedule a cleanup time. -/
theorem cleanup_sweep_spec :
    (∀ (timeout now : Nat) (σ : Sessions) (sid : String) (s : WorkflowSession),
        (sid, s) ∈ σ →
        ((sid, s) ∈ SessionManager.cleanup_old_sessions σ timeout now
          ↔ SessionManager.shouldRemove timeout now s = false))
    ∧ (∀ (timeout now : Nat) (σ : Sessions) (sid : String) (s : WorkflowSession),
        (sid, s) ∈ σ → (s.status = "completed" ∨ s.status = "failed") →
        s.marked_for_cleanup = false →
        (sid, s) ∈ SessionManager.cleanup_old_sessions σ timeout now)
    ∧ (∀ (results : List Offer) (now : Nat) (s : WorkflowSession),
        (SessionManager.setCompletedFn results now s).marked_for_cleanup
            = s.marked_for_cleanup
        ∧ (SessionManager.setCompletedFn results now s).cleanup_after
            = s.cleanup_after)
    ∧ (∀ (msg : String) (now : Nat) (s : WorkflowSession),
        (SessionManager.setFailedFn msg now s).marked_for_cleanup
            = s.marked_for_cleanup
        ∧ (SessionManager.setFailedFn msg now s).cleanup_after
            = s.cleanup_after) := by
  refine ⟨?_, ?_, ?_, ?_⟩
  · intro timeout now σ sid s hmem
    simp [SessionManager.cleanup_old_sessions, List.mem_filter, hmem]
  · intro timeout now σ sid s hmem hstat hmark
    rcases hstat with h | h <;>
      simp [SessionManager.cleanup_old_sessions, List.mem_filter, hmem,
        SessionManager.shouldRemove, hmark, h]
  · intro results now s
    exact ⟨rfl, rfl⟩
  · intro msg now s
    exact ⟨rfl, rfl⟩

/-- Witness for `cleanup_sweep_spec`: a completed, never-marked record
survives a sweep arbitrarily far in the future. -/
theorem cleanup_sweep_spec_witness :
    ("g1", { session_id := "g1", input_type := "keyword", user_input := "q",
             created_at := 0, last_updated := 9, current_stage := "complete",
             status := "completed", final_results := some [offerA] })
      ∈ SessionManager.cleanup_old_sessions
          (SessionManager.set_completed aliasState0 "g1" [offerA] 9) 1800 999999 := by
  exact cleanup_sweep_spec.2.1 1800 999999
    (SessionManager.set_completed aliasState0 "g1" [offerA] 9) "g1" _
    (by decide) (Or.inl rfl) rfl

/-- C1 (code-bug demonstration): after the product gate times out the
session is `failed` but `needs_product_confirmation` is still set
(`set_failed` does not clear it), so a later `confirm_product` succeeds
and moves the terminal session back to `status="running"`, violating the
terminal-state invariant. -/
theorem confirm_after_failure_resurrects_session :
    statusOf timedOutProductState "s1" = some "failed"
    ∧ (SessionManager.lookup timedOutProductState "s1").map
        WorkflowSession.needs_product_confirmation = some true
    ∧ (SessionManager.confirm_product timedOutProductState "s1" 0 302).1 = true
    ∧ statusOf (SessionManager.confirm_product timedOutProductState "s1" 0 302).2 "s1"
        = some "running" := by
  refine ⟨rfl, rfl, rfl, rfl⟩

/-- C2 counterexample: a pipeline run in which the per-unit-pricing
stage raises an exception does not fail the session and does not stop —
the ranking stage still runs and the session completes. -/
theorem stage_error_tolerated_counterexample :
    statusOf pipelineFinal "k2" = some "completed"
    ∧ statusOf pipelineFinal "k2" ≠ some "failed"
    ∧ "ranking" ∈ stagesLogged pipelineFinal "k2"
    ∧ "complete" ∈ stagesLogged pipelineFinal "k2" := by
  refine ⟨rfl, by decide, by decide, by decide⟩

/-- C2 amended: a raised exception immediately transitions the session
to failed with that stage's message and stops the pipeline (no later
stage appears in the log) for every stage — parsing, product search,
variant extraction, url extraction, url discovery and price scraping —
except per-unit-price-normalization and ranking, whose exceptions are
caught, logged as a warning, and the pipeline continues with the
un-normalized (resp. un-ranked) offer list and completes.  Of the empty
collaborator answers, zero product candidates, an unsuccessful url
extraction and zero discovered URLs also fail-and-halt, while an empty
variant answer auto-picks "standard" and continues and an empty
price-scraping answer continues to completion. -/
theorem stage_error_policy :
    ∀ (σ : Sessions) (sid : String) (s : WorkflowSession) (now : Nat),
      SessionManager.lookup σ sid = some s →
      ((∀ korc : KeywordOracles,
        (∀ e, korc.parse = Except.error e →
            statusOf (runKeywordWorkflow σ sid korc now) sid = some "failed"
            ∧ errorOf (runKeywordWorkflow σ sid korc now) sid
                = some ("Parsing failed: " ++ e)
            ∧ stagesLogged (runKeywordWorkflow σ sid korc now) sid
                = stagesLogged σ sid ++ ["parsing"])
        ∧ (∀ pd e, korc.parse = Except.ok pd →
            korc.productSearch = Except.error e →
            statusOf (runKeywordWorkflow σ sid korc now) sid = some "failed"
            ∧ errorOf (runKeywordWorkflow σ sid korc now) sid
                = some ("Product search failed: " ++ e)
            ∧ stagesLogged (runKeywordWorkflow σ sid korc now) sid
                = stagesLogged σ sid ++ ["parsing", "parsing", "product_search"])
        ∧ (∀ pd, korc.parse = Except.ok pd →
            korc.productSearch = Except.ok [] →
            statusOf (runKeywordWorkflow σ sid korc now) sid = some "failed"
            ∧ errorOf (runKeywordWorkflow σ sid korc now) sid
                = some "No products found"
            ∧ stagesLogged (runKeywordWorkflow σ sid korc now) sid
                = stagesLogged σ sid
                    ++ ["parsing", "parsing", "product_search", "product_search"])
        ∧ (∀ pd c e, korc.parse = Except.ok pd → pd.has_variant = false →
            korc.productSearch = Except.ok [c] →
            korc.variantSearch = Except.error e →
            statusOf (runKeywordWorkflow σ sid korc now) sid = some "failed"
            ∧ errorOf (runKeywordWorkflow σ sid korc now) sid
                = some ("Variant extraction failed: " ++ e)
            ∧ stagesLogged (runKeywordWorkflow σ sid korc now) sid
                = stagesLogged σ sid
                    ++ ["parsing", "parsing", "product_search", "product_search",
                        "product_confirmation", "variant_extraction"])
        ∧ (∀ pd c, korc.parse = Except.ok pd → pd.has_variant = false →
            korc.productSearch = Except.ok [c] →
            korc.variantSearch = Except.ok [] →
            (∀ d enriched, korc.tail.discovery = Except.ok d → d.urls ≠ [] →
              korc.tail.scraping = Except.ok enriched →
              korc.tail.perUnitExc = none → korc.tail.rankingExc = none →
              statusOf (runKeywordWorkflow σ sid korc now) sid = some "completed")))
      ∧ (∀ uorc : UrlOracles,
        (∀ e, uorc.extraction = Except.error e →
            statusOf (runUrlWorkflow σ sid uorc now) sid = some "failed"
            ∧ errorOf (runUrlWorkflow σ sid uorc now) sid
                = some ("URL extraction failed: " ++ e)
            ∧ stagesLogged (runUrlWorkflow σ sid uorc now) sid
                = stagesLogged σ sid ++ ["url_extraction"])
        ∧ (∀ r, uorc.extraction = Except.ok r → r.success = false →
            statusOf (runUrlWorkflow σ sid uorc now) sid = some "failed"
            ∧ errorOf (runUrlWorkflow σ sid uorc now) sid
                = some (r.error.getD "Extraction failed")
            ∧ stagesLogged (runUrlWorkflow σ sid uorc now) sid
                = stagesLogged σ sid ++ ["url_extraction"]))
      ∧ (∀ orc : ContinueOracles,
        (∀ e, orc.discovery = Except.error e →
            statusOf (continueWorkflow σ sid orc now) sid = some "failed"
            ∧ errorOf (continueWorkflow σ sid orc now) sid
                = some ("URL discovery failed: " ++ e)
            ∧ stagesLogged (continueWorkflow σ sid orc now) sid
                = stagesLogged σ sid ++ ["url_discovery"])
        ∧ (∀ d, orc.discovery = Except.ok d → d.urls = [] →
            statusOf (continueWorkflow σ sid orc now) sid = some "failed"
            ∧ errorOf (continueWorkflow σ sid orc now) sid
                = some (d.error.getD "No URLs found")
            ∧ stagesLogged (continueWorkflow σ sid orc now) sid
                = stagesLogged σ sid ++ ["url_discovery", "url_discovery"])
        ∧ (∀ d e, orc.discovery = Except.ok d → d.urls ≠ [] →
            orc.scraping = Except.error e →
            statusOf (continueWorkflow σ sid orc now) sid = some "failed"
            ∧ errorOf (continueWorkflow σ sid orc now) sid
                = some ("Price scraping failed: " ++ e)
            ∧ stagesLogged (continueWorkflow σ sid orc now) sid
                = stagesLogged σ sid
                    ++ ["url_discovery", "url_discovery", "price_scraping"])
        ∧ (∀ d, orc.discovery = Except.ok d → d.urls ≠ [] →
            orc.scraping = Except.ok [] →
            orc.perUnitExc = none → orc.rankingExc = none →
            statusOf (continueWorkflow σ sid orc now) sid = some "completed"
            ∧ resultsOf (continueWorkflow σ sid orc now) sid = some [])
        ∧ (∀ d enriched e, orc.discovery = Except.ok d → d.urls ≠ [] →
            orc.scraping = Except.ok enriched → orc.perUnitExc = some e →
            orc.rankingExc = none →
            statusOf (continueWorkflow σ sid orc now) sid = some "completed"
            ∧ resultsOf (continueWorkflow σ sid orc now) sid
                = some (rankOffers enriched))
        ∧ (∀ d enriched e, orc.discovery = Except.ok d → d.urls ≠ [] →
            orc.scraping = Except.ok enriched → orc.perUnitExc = none →
            orc.rankingExc = some e →
            statusOf (continueWorkflow σ sid orc now) sid = some "completed"
            ∧ resultsOf (continueWorkflow σ sid orc now) sid
                = some (perUnitStage orc.extractor enriched)))) := by
  intro σ sid s now hs
  refine ⟨?_, ?_, ?_⟩
  · intro korc
    refine ⟨?_, ?_, ?_, ?_, ?_⟩
    · intro e hp
      refine ⟨?_, ?_, ?_⟩ <;>
        simp [runKeywordWorkflow, hp, statusOf, errorOf, stagesLogged,
          SessionManager.set_failed, SessionManager.setFailedFn,
          SessionManager.add_progress_log, SessionManager.update_stage,
          lookup_updateAt, hs, Option.map_map, Function.comp]
    · intro pd e hp hps
      refine ⟨?_, ?_, ?_⟩ <;>
        simp [runKeywordWorkflow, hp, hps, statusOf, errorOf, stagesLogged,
          SessionManager.set_failed, SessionManager.setFailedFn,
          SessionManager.add_progress_log, SessionManager.update_stage,
          lookup_updateAt, hs, Option.map_map, Function.comp]
    · intro pd hp hps
      refine ⟨?_, ?_, ?_⟩ <;>
        simp [runKeywordWorkflow, hp, hps, statusOf, errorOf, stagesLogged,
          SessionManager.set_failed, SessionManager.setFailedFn,
          SessionManager.add_progress_log, SessionManager.update_stage,
          lookup_updateAt, hs, Option.map_map, Function.comp]
    · intro pd c e hp hv hps hvs
      refine ⟨?_, ?_, ?_⟩ <;>
        simp [runKeywordWorkflow, runVariantPhase, hp, hv, hps, hvs,
          statusOf, errorOf, stagesLogged,
          SessionManager.set_failed, SessionManager.setFailedFn,
          SessionManager.add_progress_log, SessionManager.update_stage,
          lookup_updateAt, hs, Option.map_map, Function.comp]
    · intro pd c hp hv hps hvs d enriched hd hurls hscr hpu hrk
      have hne : d.urls.isEmpty = false := by simp [hurls]
      simp [runKeywordWorkflow, runVariantPhase, continueWorkflow, hp, hv, hps,
        hvs, hd, hne, hscr, hpu, hrk, statusOf,
        SessionManager.set_completed, SessionManager.setCompletedFn,
        SessionManager.add_progress_log, SessionManager.update_stage,
        lookup_updateAt, hs, Option.map_map, Function.comp]
  · intro uorc
    refine ⟨?_, ?_⟩
    · intro e he
      refine ⟨?_, ?_, ?_⟩ <;>
        simp [runUrlWorkflow, he, statusOf, errorOf, stagesLogged,
          SessionManager.set_failed, SessionManager.setFailedFn,
          SessionManager.add_progress_log, SessionManager.update_stage,
          lookup_updateAt, hs, Option.map_map, Function.comp]
    · intro r hr hsucc
      refine ⟨?_, ?_, ?_⟩ <;>
        simp [runUrlWorkflow, hr, hsucc, statusOf, errorOf, stagesLogged,
          SessionManager.set_failed, SessionManager.setFailedFn,
          SessionManager.add_progress_log, SessionManager.update_stage,
          lookup_updateAt, hs, Option.map_map, Function.comp]
  · intro orc
    refine ⟨?_, ?_, ?_, ?_, ?_, ?_⟩
    · intro e hdisc
      refine ⟨?_, ?_, ?_⟩ <;>
        simp [continueWorkflow, hdisc, statusOf, errorOf, stagesLogged,
          SessionManager.set_failed, SessionManager.setFailedFn,
          SessionManager.add_progress_log, SessionManager.update_stage,
          lookup_updateAt, hs, Option.map_map, Function.comp]
    · intro d hdisc hurls
      refine ⟨?_, ?_, ?_⟩ <;>
        simp [continueWorkflow, hdisc, hurls, statusOf, errorOf, stagesLogged,
          SessionManager.set_failed, SessionManager.setFailedFn,
          SessionManager.add_progress_log, SessionManager.update_stage,
          lookup_updateAt, hs, Option.map_map, Function.comp]
    · intro d e hdisc hurls hscr
      have hne : d.urls.isEmpty = false := by simp [hurls]
      refine ⟨?_, ?_, ?_⟩ <;>
        simp [continueWorkflow, hdisc, hne, hscr, statusOf, errorOf, stagesLogged,
          SessionManager.set_failed, SessionManager.setFailedFn,
          SessionManager.add_progress_log, SessionManager.update_stage,
          lookup_updateAt, hs, Option.map_map, Function.comp]
    · intro d hdisc hurls hscr hpu hrk
      have hne : d.urls.isEmpty = false := by simp [hurls]
      refine ⟨?_, ?_⟩ <;>
        simp [continueWorkflow, hdisc, hne, hscr, hpu, hrk, statusOf, resultsOf,
          perUnitStage, rankOffers, hasPU,
          SessionManager.set_completed, SessionManager.setCompletedFn,
          SessionManager.add_progress_log, SessionManager.update_stage,
          lookup_updateAt, hs, Option.map_map, Function.comp]
    · intro d enriched e hdisc hurls hscr hpu hrk
      have hne : d.urls.isEmpty = false := by simp [hurls]
      refine ⟨?_, ?_⟩ <;>
        simp [continueWorkflow, hdisc, hne, hscr, hpu, hrk, statusOf, resultsOf,
          SessionManager.set_completed, SessionManager.setCompletedFn,
          SessionManager.add_progress_log, SessionManager.update_stage,
          lookup_updateAt, hs, Option.map_map, Function.comp]
    · intro d enriched e hdisc hurls hscr hpu hrk
      have hne : d.urls.isEmpty = false := by simp [hurls]
      refine ⟨?_, ?_⟩ <;>
        simp [continueWorkflow, hdisc, hne, hscr, hpu, hrk, statusOf, resultsOf,
          SessionManager.set_completed, SessionManager.setCompletedFn,
          SessionManager.add_progress_log, SessionManager.update_stage,
          lookup_updateAt, hs, Option.map_map, Function.comp]

/-- Witness for `stage_error_policy`: a parsing exception and a
discovery exception each fail the session, while a per-unit-pricing
exception lets the run complete with the ranking of the un-normalized
offers. -/
theorem stage_error_policy_witness :
    statusOf (runKeywordWorkflow pipelineState0 "k2"
        { parse := Except.error "llm down", productSearch := Except.ok [],
          variantSearch := Except.ok [], tail := perUnitFailureOracles } 5) "k2"
      = some "failed"
    ∧ statusOf (continueWorkflow pipelineState0 "k2"
        { discovery := Except.error "search crashed",
          scraping := Except.ok [] } 5) "k2" = some "failed"
    ∧ statusOf pipelineFinal "k2" = some "completed"
    ∧ resultsOf pipelineFinal "k2" = some (rankOffers [scrapedOffer]) := by
  refine ⟨?_, ?_, ?_, ?_⟩
  · exact (((stage_error_policy pipelineState0 "k2" _ 5 rfl).1
      { parse := Except.error "llm down", productSearch := Except.ok [],
        variantSearch := Except.ok [], tail := perUnitFailureOracles }).1
      "llm down" rfl).1
  · exact (((stage_error_policy pipelineState0 "k2" _ 5 rfl).2.2
      { discovery := Except.error "search crashed", scraping := Except.ok [] }).1
      "search crashed" rfl).1
  · exact (((stage_error_policy pipelineState0 "k2" _ 5 rfl).2.2
      perUnitFailureOracles).2.2.2.2.1 { urls := [scrapedOffer], error := none }
      [scrapedOffer] "combo agent crashed" rfl (by decide) rfl rfl rfl).1
  · exact (((stage_error_policy pipelineState0 "k2" _ 5 rfl).2.2
      perUnitFailureOracles).2.2.2.2.1 { urls := [scrapedOffer], error := none }
      [scrapedOffer] "combo agent crashed" rfl (by decide) rfl rfl rfl).2

/-- C5 counterexample: a url-extraction gate that is opened and never
resolved does fail at the 300 s timeout, but its final `error_message`
is "User rejected extraction" — the post-wait check of the url workflow
overwrites the gate-specific timeout message. -/
theorem url_gate_timeout_message_counterexample :
    urlGateWaited.2 = gateTimeoutSeconds
    ∧ statusOf urlGateWaited.1 "u1" = some "failed"
    ∧ errorOf urlGateWaited.1 "u1" = some "URL extraction confirmation timeout"
    ∧ (urlPostWaitCheck urlGateWaited.1 "u1" 302).2 = false
    ∧ errorOf (urlPostWaitCheck urlGateWaited.1 "u1" 302).1 "u1"
        = some "User rejected extraction"
    ∧ errorOf (urlPostWaitCheck urlGateWaited.1 "u1" 302).1 "u1"
        ≠ some "URL extraction confirmation timeout" := by
  have hw : urlGateWaited
      = (SessionManager.set_failed urlGateState "u1"
          Gate.urlExtraction.timeoutMsg (1 + gateTimeoutSeconds),
         gateTimeoutSeconds) :=
    waitForConfirmation_never_resolved Gate.urlExtraction urlGateState "u1" 1
      gateTimeoutSeconds urlGateSession rfl rfl (by decide)
      gateTimeoutSeconds 0 rfl (by decide)
  rw [hw]
  refine ⟨rfl, rfl, rfl, rfl, rfl, by decide⟩

/-- C5 amended: a gate opened and never resolved marks the session
failed exactly at its configured timeout and the pipeline halts; the
product and variant gates keep the gate-specific timeout message, while
for the url-extraction gate the timeout message is set and then
immediately overwritten with "User rejected extraction" by the workflow
post-wait check. -/
theorem gate_timeout_behavior :
    ∀ (σ : Sessions) (sid : String) (s : WorkflowSession)
      (start timeout now : Nat) (g : Gate),
      SessionManager.lookup σ sid = some s →
      g.needsFlag s = true → s.status ≠ "failed" →
      (waitForConfirmation g σ sid start 0 timeout).2 = timeout
      ∧ statusOf (waitForConfirmation g σ sid start 0 timeout).1 sid = some "failed"
      ∧ errorOf (waitForConfirmation g σ sid start 0 timeout).1 sid
          = some g.timeoutMsg
      ∧ postWaitHalts (waitForConfirmation g σ sid start 0 timeout).1 sid = true
      ∧ (g = Gate.urlExtraction →
          (urlPostWaitCheck (waitForConfirmation g σ sid start 0 timeout).1 sid now).2
            = false
          ∧ errorOf
              (urlPostWaitCheck (waitForConfirmation g σ sid start 0 timeout).1 sid now).1
              sid = some "User rejected extraction") := by
  intro σ sid s start timeout now g hs hflag hfail
  have hw := waitForConfirmation_never_resolved g σ sid start timeout s hs hflag hfail
    timeout 0 rfl (Nat.zero_le _)
  rw [hw]
  refine ⟨rfl, ?_, ?_, ?_, ?_⟩
  · simp [statusOf, SessionManager.set_failed, SessionManager.setFailedFn,
      lookup_updateAt, hs]
  · simp [errorOf, SessionManager.set_failed, SessionManager.setFailedFn,
      lookup_updateAt, hs]
  · simp [postWaitHalts, SessionManager.set_failed, SessionManager.setFailedFn,
      lookup_updateAt, hs]
  · intro _
    constructor
    · simp [urlPostWaitCheck, SessionManager.set_failed,
        SessionManager.setFailedFn, lookup_updateAt, hs]
    · simp [urlPostWaitCheck, errorOf, SessionManager.set_failed,
        SessionManager.setFailedFn, lookup_updateAt, hs]

/-- Witness for `gate_timeout_behavior`: the never-resolved product gate
fails at 300 s with its own timeout message and the workflow halts; the
never-resolved url-extraction gate also halts but ends with the
overwritten message. -/
theorem gate_timeout_behavior_witness :
    productGateWaited.2 = gateTimeoutSeconds
    ∧ errorOf productGateWaited.1 "k1" = some "Product confirmation timeout"
    ∧ postWaitHalts productGateWaited.1 "k1" = true
    ∧ (urlPostWaitCheck urlGateWaited.1 "u1" 302).2 = false
    ∧ errorOf (urlPostWaitCheck urlGateWaited.1 "u1" 302).1 "u1"
        = some "User rejected extraction" := by
  have hp := gate_timeout_behavior productGateState "k1" productGateSession 1
    gateTimeoutSeconds 302 Gate.product rfl rfl (by decide)
  have hu := gate_timeout_behavior urlGateState "u1" urlGateSession 1
    gateTimeoutSeconds 302 Gate.urlExtraction rfl rfl (by decide)
  exact ⟨hp.1, hp.2.2.1, hp.2.2.2.1, (hu.2.2.2.2 rfl).1, (hu.2.2.2.2 rfl).2⟩

/-- C6 counterexample: `get_session` returns the stored record itself
(`return self.sessions.get(session_id)` — no copy), so a mutation
applied after a get changes the value observable through the
earlier-returned reference. -/
theorem get_session_live_reference_counterexample :
    SessionManager.get_session_ref aliasState0 "g1" = some "g1"
    ∧ (SessionManager.deref aliasState0 "g1").map WorkflowSession.status
        = some "running"
    ∧ (SessionManager.deref aliasState1 "g1").map WorkflowSession.status
        = some "failed"
    ∧ SessionManager.deref aliasState1 "g1" ≠ SessionManager.deref aliasState0 "g1" := by
  refine ⟨rfl, rfl, rfl, by decide⟩

/-- C6 amended: `get_session` returns a live, mutable reference to the
stored record, not an immutable copy: dereferencing the earlier-returned
reference after a `set_failed` mutation shows the mutated record (so it
no longer equals the record seen at get time whenever the mutation
changed it). -/
theorem get_session_live_reference :
    ∀ (σ : Sessions) (sid : String) (s : WorkflowSession) (msg : String) (now : Nat),
      SessionManager.lookup σ sid = some s →
      SessionManager.get_session_ref σ sid = some sid
      ∧ SessionManager.deref σ sid = SessionManager.get_session_snapshot σ sid
      ∧ SessionManager.deref (SessionManager.set_failed σ sid msg now) sid
          = some (SessionManager.setFailedFn msg now s)
      ∧ (s.status ≠ "failed" →
          SessionManager.deref (SessionManager.set_failed σ sid msg now) sid
            ≠ some s) := by
  intro σ sid s msg now hs
  have h3 : SessionManager.deref (SessionManager.set_failed σ sid msg now) sid
      = some (SessionManager.setFailedFn msg now s) := by
    simp [SessionManager.deref, SessionManager.set_failed, lookup_updateAt, hs]
  refine ⟨?_, rfl, h3, ?_⟩
  · simp [SessionManager.get_session_ref, hs]
  · intro hst heq
    rw [h3] at heq
    have := congrArg WorkflowSession.status (Option.some.inj heq)
    simp [SessionManager.setFailedFn] at this
    exact hst this.symm

/-- Witness for `get_session_live_reference`: the concrete session
`"g1"` observed through the reference before and after `set_failed`. -/
theorem get_session_live_reference_witness :
    SessionManager.get_session_ref aliasState0 "g1" = some "g1"
    ∧ SessionManager.deref (SessionManager.set_failed aliasState0 "g1" "boom" 5) "g1"
        ≠ some { session_id := "g1", input_type := "keyword", user_input := "q",
                 created_at := 0, last_updated := 0 } := by
  have h := get_session_live_reference aliasState0 "g1"
    { session_id := "g1", input_type := "keyword", user_input := "q",
      created_at := 0, last_updated := 0 } "boom" 5 rfl
  exact ⟨h.1, h.2.2.2 (by decide)⟩
